import Mathlib

/-!
Verification development for the SaveEcoBot Home Assistant sensor
(`sensor.py`).  The Python source is shallowly embedded:

* `datetime.datetime` instants are modelled as `Int` (seconds); all the
  source ever does with them is subtract and compare against
  `timedelta(seconds=30)` and `timedelta(hours=12)`, and format one with
  `strftime`, which is abstracted as `strftimeDayFormat` (only its
  definedness on a non-null instant matters).
* JSON / Python floats are modelled as `Rat`.
* pydantic construction (`Station(**station)`), which raises
  `ValidationError` on a bad record, is modelled by `Option`-returning
  parsers over `RawStation` records whose fields record the shape of the
  incoming JSON value (`missing` / `null` / `malformed` / well-typed).
* Python exceptions escaping a function are modelled with `Except` or an
  explicit error constructor in the result type.
* `StationsClient.update` is modelled as a pure transition function: the
  clock reading and the HTTP response the server would give are passed in,
  and the result records whether the network was actually used
  (`networkCalled`), mirroring whether `session.get` ran.
-/

/-- Unit string from `homeassistant.const`, imported by the source. -/
def CONCENTRATION_MILLIGRAMS_PER_CUBIC_METER : String := "mg/m³"

/-- Unit string from `homeassistant.const`, imported by the source. -/
def TEMP_CELSIUS : String := "°C"

/-- Unit string from `homeassistant.const`, imported by the source. -/
def PERCENTAGE : String := "%"

/-- Unit string from `homeassistant.const`, imported by the source. -/
def PRESSURE_HPA : String := "hPa"

/-- Source `SENSOR_DEPRECATION_HOURS = 12` in the source. -/
def SENSOR_DEPRECATION_HOURS : Int := 12

/-- Source `class PollutantType(Enum)` of the source. -/
inductive PollutantType where
  | PM2_5
  | PM10
  | TEMPERATURE
  | HUMIDITY
  | PRESSURE
  | AQI
deriving DecidableEq

/-- The Python enum member value (`PollutantType.PM2_5.value` etc.). -/
def PollutantType.value : PollutantType → String
  | .PM2_5 => "PM2.5"
  | .PM10 => "PM10"
  | .TEMPERATURE => "Temperature"
  | .HUMIDITY => "Humidity"
  | .PRESSURE => "Pressure"
  | .AQI => "Air Quality Index"

/-- The Python enum member name (`p.pol.name` in the source). -/
def PollutantType.pname : PollutantType → String
  | .PM2_5 => "PM2_5"
  | .PM10 => "PM10"
  | .TEMPERATURE => "TEMPERATURE"
  | .HUMIDITY => "HUMIDITY"
  | .PRESSURE => "PRESSURE"
  | .AQI => "AQI"

/-- Enum lookup by value, as pydantic does when validating a
`PollutantType` field from a feed string. -/
def PollutantType.ofValue (s : String) : Option PollutantType :=
  if s = "PM2.5" then some .PM2_5
  else if s = "PM10" then some .PM10
  else if s = "Temperature" then some .TEMPERATURE
  else if s = "Humidity" then some .HUMIDITY
  else if s = "Pressure" then some .PRESSURE
  else if s = "Air Quality Index" then some .AQI
  else none

/-- Source `class Pollutant(BaseModel)` of the source.  `time` and `value` are
`Optional` in the source and hence `Option` here. -/
structure Pollutant where
  pol : PollutantType
  unit : String
  time : Option Int
  value : Option Rat
  averaging : String
deriving DecidableEq

/-- The static `_units_translation` table inside `Pollutant.hass_unit`. -/
def hassUnitTranslation : List (String × String) :=
  [("mg/m3", CONCENTRATION_MILLIGRAMS_PER_CUBIC_METER),
   ("Celcius", TEMP_CELSIUS),
   ("%", PERCENTAGE),
   ("hPa", PRESSURE_HPA)]

/-- Source `Pollutant.hass_unit`: dictionary lookup with fall-through to the raw
unit string when the key is absent. -/
def Pollutant.hass_unit (p : Pollutant) : String :=
  match hassUnitTranslation.find? (fun kv => kv.fst == p.unit) with
  | some kv => kv.snd
  | none => p.unit

/-- The attribute dictionary built inside `Station.sensors` (keys
`updated_at`, `unit_of_measurement`, `averaging`, then the common
attributes `city`, `address`, `local_name`, `timezone`, `latitude`,
`longitude`). -/
structure DeviceAttrs where
  updated_at : String
  unit_of_measurement : String
  averaging : String
  city : String
  address : String
  local_name : String
  timezone : String
  latitude : Rat
  longitude : Rat
deriving DecidableEq

/-- Source `class SaveEcoBotSensorModel(BaseModel)` of the source.  The `state`
field is a plain (non-`Optional`) `float` there, hence a plain `Rat`
here: pydantic rejects `None` for it. -/
structure SaveEcoBotSensorModel where
  name : String
  unique_id : String
  station_id : String
  sensor_type : PollutantType
  state : Rat
  device_state_attributes : DeviceAttrs
  deprecated : Bool
deriving DecidableEq

/-- Abstraction of `datetime.datetime.strftime(t, "%d.%m.%Y, %H:%M:%S")`
on a non-null instant; the produced text is never inspected by the
source, only stored in the attribute dictionary. -/
def strftimeDayFormat (t : Int) : String :=
  "t=" ++ toString t

/-- Source `class Station(BaseModel)` of the source. -/
structure Station where
  id : String
  cityName : String
  stationName : String
  localName : String
  timezone : String
  latitude : Rat
  longitude : Rat
  pollutants : List Pollutant
deriving DecidableEq

/-- Python `str.lower()` (structurally recursive so that concrete
instances evaluate in the kernel). -/
def pyLower (s : String) : String :=
  ⟨s.data.map Char.toLower⟩

/-- Source `Station.slug`: `f"{self.id}_{self.cityName}".lower()`. -/
def Station.slug (st : Station) : String :=
  pyLower (st.id ++ "_" ++ st.cityName)

/-- The two Python exceptions that can escape `Station.sensors`:
`strftime(None, ...)` raises `TypeError`, and constructing
`SaveEcoBotSensorModel` with `state=None` raises pydantic
`ValidationError`. -/
inductive SensorsErr where
  | strftimeNone
  | stateNone
deriving DecidableEq

/-- One iteration of the loop body of `Station.sensors` for pollutant
`p`: first the attribute dict is built (`strftime` raises on a null
`time`), then the model is constructed (pydantic rejects a null
`value` for the non-optional `state` field). -/
def mkSensor (st : Station) (now : Int) (p : Pollutant) :
    Except SensorsErr SaveEcoBotSensorModel :=
  match p.time with
  | none => .error .strftimeNone
  | some t =>
    match p.value with
    | none => .error .stateNone
    | some v =>
      .ok ⟨p.pol.pname ++ " (" ++ st.cityName ++ ", " ++ st.stationName ++ ")",
           st.slug ++ "_" ++ pyLower p.pol.pname,
           st.id,
           p.pol,
           v,
           ⟨strftimeDayFormat t, p.hass_unit, p.averaging,
            st.cityName, st.stationName, st.localName, st.timezone,
            st.latitude, st.longitude⟩,
           decide (now - t > SENSOR_DEPRECATION_HOURS * 3600)⟩

/-- Sequential effectful map: the Python `for` loop appending one
record per pollutant, with any raised exception propagating out and
aborting the whole call. -/
def mapExcept {α β ε : Type} (f : α → Except ε β) : List α → Except ε (List β)
  | [] => .ok []
  | x :: xs =>
    match f x with
    | .error e => .error e
    | .ok y =>
      match mapExcept f xs with
      | .error e => .error e
      | .ok ys => .ok (y :: ys)

/-- Source `Station.sensors`, parameterised by the wall clock reading `now`. -/
def Station.sensors (st : Station) (now : Int) :
    Except SensorsErr (List SaveEcoBotSensorModel) :=
  mapExcept (mkSensor st now) st.pollutants

/-- Shape of one incoming JSON field as seen by pydantic: absent from the
object, JSON `null`, present but of an unparseable shape for the target
type, or a well-typed value. -/
inductive RawField (α : Type) where
  | missing
  | null
  | malformed
  | val (a : α)
deriving DecidableEq

/-- pydantic validation of a required (non-`Optional`) field: anything
but a well-typed value is a `ValidationError`. -/
def reqField {α : Type} : RawField α → Option α
  | .val a => some a
  | _ => none

/-- pydantic validation of an `Optional[...]` field: absent or `null`
becomes `None`; a present but unparseable value is still a
`ValidationError`. -/
def optField {α : Type} : RawField α → Option (Option α)
  | .missing => some none
  | .null => some none
  | .malformed => none
  | .val a => some (some a)

/-- One raw pollutant sub-record of the feed. -/
structure RawPollutant where
  pol : RawField String
  unit : RawField String
  time : RawField Int
  value : RawField Rat
  averaging : RawField String
deriving DecidableEq

/-- One raw station record of the feed. -/
structure RawStation where
  id : RawField String
  cityName : RawField String
  stationName : RawField String
  localName : RawField String
  timezone : RawField String
  latitude : RawField Rat
  longitude : RawField Rat
  pollutants : RawField (List RawPollutant)
deriving DecidableEq

/-- pydantic validation of one `Pollutant` sub-record: `pol`, `unit` and
`averaging` are required, `pol` must additionally be a member of the
`PollutantType` enumeration, `time` and `value` are `Optional`. -/
def parsePollutant (r : RawPollutant) : Option Pollutant := do
  let polStr ← reqField r.pol
  let pol ← PollutantType.ofValue polStr
  let unit ← reqField r.unit
  let time ← optField r.time
  let value ← optField r.value
  let averaging ← reqField r.averaging
  some ⟨pol, unit, time, value, averaging⟩

/-- Source `Station(**station)`: every field is required, and every pollutant
sub-record must itself validate; any failure rejects the whole record
(`ValidationError`). -/
def parseStation (r : RawStation) : Option Station := do
  let id ← reqField r.id
  let cityName ← reqField r.cityName
  let stationName ← reqField r.stationName
  let localName ← reqField r.localName
  let timezone ← reqField r.timezone
  let latitude ← reqField r.latitude
  let longitude ← reqField r.longitude
  let rawPols ← reqField r.pollutants
  let pols ← rawPols.mapM parsePollutant
  some ⟨id, cityName, stationName, localName, timezone, latitude, longitude, pols⟩

/-- Source `class StationsClient` state: the station list and the time of the
last successful update. -/
structure StationsClient where
  stations : List Station
  updated_at : Int
deriving DecidableEq

/-- Source `StationsClient.__init__`: empty station list, `updated_at = now`. -/
def StationsClient.init (now : Int) : StationsClient :=
  ⟨[], now⟩

/-- Result of one `update` call: the new client state, the returned
boolean, and whether `session.get` was actually issued. -/
structure UpdateResult where
  client : StationsClient
  success : Bool
  networkCalled : Bool
deriving DecidableEq

/-- Source `StationsClient.update`.  `now` is the clock reading, `status` and
`body` are the response the server would give if the request were
issued.  Branches, in source order: the 30-second debounce (return
`True`, no request), the `resp.status != 200` check (return `False`,
state untouched), and the success path (wholesale replacement of
`stations` with the records that validate, `updated_at := now`,
return `True`). -/
def StationsClient.update (c : StationsClient) (now : Int) (force : Bool)
    (status : Nat) (body : List RawStation) : UpdateResult :=
  if now - c.updated_at < 30 ∧ force = false then
    ⟨c, true, false⟩
  else if status ≠ 200 then
    ⟨c, false, true⟩
  else
    ⟨⟨body.filterMap parseStation, now⟩, true, true⟩

/-- Source `StationsClient.filter_stations`: each supplied (non-empty, i.e.
Python-truthy) criterion list adds one `filter` pass; `deepcopy` is the
identity under value semantics. -/
def StationsClient.filter_stations (c : StationsClient)
    (station_ids city_names station_names : List String) : List Station :=
  let fs0 := c.stations
  let fs1 := if station_ids.isEmpty then fs0
             else fs0.filter (fun s => station_ids.contains s.id)
  let fs2 := if city_names.isEmpty then fs1
             else fs1.filter (fun s => city_names.contains s.cityName)
  let fs3 := if station_names.isEmpty then fs2
             else fs2.filter (fun s => station_names.contains s.stationName)
  fs3

/-- Ascending insertion, for `sorted(...)`. -/
def insertAsc (x : String) : List String → List String
  | [] => [x]
  | y :: ys => if x ≤ y then x :: y :: ys else y :: insertAsc x ys

/-- Source `sorted(...)` on a list of strings. -/
def sortAsc : List String → List String
  | [] => []
  | x :: xs => insertAsc x (sortAsc xs)

/-- Source `StationsClient.cities`: `sorted(set(c.cityName for c in stations))`. -/
def StationsClient.cities (c : StationsClient) : List String :=
  sortAsc ((c.stations.map (fun s => s.cityName)).dedup)

/-- Source `StationsClient.city_stations`. -/
def StationsClient.city_stations (c : StationsClient) (city : String) :
    List (String × String) :=
  if city ∈ c.cities then
    (c.filter_stations [] [city] []).map (fun s => (s.id, s.stationName))
  else
    []

/-- Outcome of `StationsClient.get_sensor`: a model, Python `None`
(absent), the `IndexError` raised by `.pop()` on an empty match list, or
an exception propagated out of `Station.sensors`. -/
inductive GetSensorResult where
  | found (m : SaveEcoBotSensorModel)
  | absent
  | indexError
  | sensorsError (e : SensorsErr)
deriving DecidableEq

/-- Source `StationsClient.get_sensor`: filter by station id, `.pop()` the last
match (raising `IndexError` when there is none), derive its sensors,
filter by `sensor_type`, and return the last match or `None`. -/
def StationsClient.get_sensor (c : StationsClient) (now : Int)
    (station_id : String) (sensor_type : PollutantType) : GetSensorResult :=
  match (c.filter_stations [station_id] [] []).getLast? with
  | none => .indexError
  | some station =>
    match station.sensors now with
    | .error e => .sensorsError e
    | .ok sensors =>
      match (sensors.filter (fun p => p.sensor_type == sensor_type)).getLast? with
      | none => .absent
      | some m => .found m

/-! Concrete fixtures used by the closed theorems below. -/

/-- A fully populated pollutant reading. -/
def polOk : Pollutant :=
  ⟨.PM2_5, "mg/m3", some 1000, some 5, "1 hour"⟩

/-- A station with the single pollutant `polOk`. -/
def stOk : Station :=
  ⟨"S_1", "Kyiv", "Main St", "Hreshchatyk", "Europe/Kiev", 50, 30, [polOk]⟩

/-- A pollutant whose `value` is `null` (its `time` is present). -/
def polNullValue : Pollutant :=
  ⟨.PM2_5, "mg/m3", some 0, none, "1h"⟩

/-- A station containing `polNullValue`. -/
def stNullValue : Station :=
  ⟨"S_2", "Kyiv", "Addr", "Loc", "EET", 0, 0, [polNullValue]⟩

/-- A pollutant whose `time` is `null`. -/
def polNullTime : Pollutant :=
  ⟨.PM10, "ug/m3", none, some 3, "1h"⟩

/-- A station containing `polNullTime`. -/
def stNullTime : Station :=
  ⟨"S_3", "Lviv", "Addr", "Loc", "EET", 0, 0, [polNullTime]⟩

/-- A raw pollutant record that validates. -/
def rawPolGood : RawPollutant :=
  ⟨.val "PM2.5", .val "mg/m3", .val 100, .val 5, .val "1h"⟩

/-- A raw station record that validates. -/
def rawGood : RawStation :=
  ⟨.val "S_1", .val "Kyiv", .val "Main", .val "Loc", .val "EET",
   .val 50, .val 30, .val [rawPolGood]⟩

/-- The station `rawGood` parses to. -/
def stGood : Station :=
  ⟨"S_1", "Kyiv", "Main", "Loc", "EET", 50, 30,
   [⟨.PM2_5, "mg/m3", some 100, some 5, "1h"⟩]⟩

/-- A raw station record that fails validation (its `id` is missing). -/
def rawBad : RawStation :=
  ⟨.missing, .val "Kyiv", .val "Main", .val "Loc", .val "EET",
   .val 50, .val 30, .val []⟩

/-! Helper lemmas about `mapExcept` and the derived-sensor builder. -/

/-- Success of `mapExcept` is elementwise success, in order. -/
theorem mapExcept_ok_forall2 {α β ε : Type} {f : α → Except ε β} :
    ∀ {xs : List α} {ys : List β}, mapExcept f xs = .ok ys →
      List.Forall₂ (fun x y => f x = Except.ok y) xs ys := by
  intro xs
  induction xs with
  | nil =>
    intro ys h
    simp only [mapExcept] at h
    cases h
    exact List.Forall₂.nil
  | cons x xs ih =>
    intro ys h
    simp only [mapExcept] at h
    cases hf : f x with
    | error e => rw [hf] at h; cases h
    | ok y =>
      rw [hf] at h
      cases hr : mapExcept f xs with
      | error e => rw [hr] at h; cases h
      | ok ys2 =>
        rw [hr] at h
        cases h
        exact List.Forall₂.cons hf (ih hr)

/-- If every element succeeds, `mapExcept` succeeds, elementwise. -/
theorem mapExcept_all_ok {α β ε : Type} {f : α → Except ε β} :
    ∀ {xs : List α}, (∀ x ∈ xs, ∃ y, f x = Except.ok y) →
      ∃ ys, mapExcept f xs = .ok ys ∧
        List.Forall₂ (fun x y => f x = Except.ok y) xs ys := by
  intro xs
  induction xs with
  | nil => exact fun _ => ⟨[], rfl, List.Forall₂.nil⟩
  | cons x xs ih =>
    intro h
    obtain ⟨y, hy⟩ := h x (List.mem_cons_self x xs)
    obtain ⟨ys, hys, hall⟩ := ih (fun a ha => h a (List.mem_cons_of_mem x ha))
    refine ⟨y :: ys, ?_, List.Forall₂.cons hy hall⟩
    simp only [mapExcept, hy, hys]

/-- A `Forall₂` gives a right-hand partner for every left member. -/
theorem forall2_mem_left {α β : Type} {R : α → β → Prop} {xs : List α}
    {ys : List β} (h : List.Forall₂ R xs ys) {x : α} (hx : x ∈ xs) :
    ∃ y, R x y := by
  induction h with
  | nil => cases hx
  | cons hR _ ih =>
    rcases List.mem_cons.mp hx with h1 | h2
    · exact h1 ▸ ⟨_, hR⟩
    · exact ih h2

/-- Inversion of a successful `mkSensor`: both optional fields were
present, and the produced record copies the pollutant data. -/
theorem mkSensor_ok_inv {st : Station} {now : Int} {p : Pollutant}
    {m : SaveEcoBotSensorModel} (h : mkSensor st now p = .ok m) :
    ∃ t v, p.time = some t ∧ p.value = some v ∧
      m.sensor_type = p.pol ∧ m.state = v ∧
      (m.deprecated = true ↔ now - t > SENSOR_DEPRECATION_HOURS * 3600) := by
  cases ht : p.time with
  | none => simp [mkSensor, ht] at h
  | some t =>
    cases hv : p.value with
    | none => simp [mkSensor, ht, hv] at h
    | some v =>
      simp only [mkSensor, ht, hv] at h
      cases h
      exact ⟨t, v, rfl, rfl, rfl, rfl, by simp⟩

/-- `filterMap` returns, in order, exactly the images of the elements on
which the function succeeds. -/
theorem filter_isSome_forall2_filterMap {α β : Type} (f : α → Option β) :
    ∀ l : List α,
      List.Forall₂ (fun a b => f a = some b)
        (l.filter (fun a => (f a).isSome)) (l.filterMap f) := by
  intro l
  induction l with
  | nil => exact List.Forall₂.nil
  | cons x xs ih =>
    cases hf : f x with
    | none => simpa [List.filter_cons, List.filterMap_cons, hf] using ih
    | some b =>
      have h1 : List.filter (fun a => (f a).isSome) (x :: xs)
          = x :: List.filter (fun a => (f a).isSome) xs := by
        simp [List.filter_cons, hf]
      have h2 : List.filterMap f (x :: xs) = b :: List.filterMap f xs := by
        simp [List.filterMap_cons, hf]
      rw [h1, h2]
      exact List.Forall₂.cons hf ih

/-- The single sensor record derived from `stOk` at `now = 44200`,
i.e. exactly 12 hours after the reading's timestamp `1000`. -/
def recC6 : SaveEcoBotSensorModel :=
  ⟨"PM2_5 (Kyiv, Main St)", "s_1_kyiv_pm2_5", "S_1", .PM2_5, 5,
   ⟨"t=1000", "mg/m³", "1 hour", "Kyiv", "Main St", "Hreshchatyk",
    "Europe/Kiev", 50, 30⟩, false⟩

/-- Claim C1, behaviour at the failing input: on a registry without the
requested station id, `get_sensor` raises `IndexError` (from `.pop()` on
the empty match list) rather than returning an absent result; when the
station exists but lacks the requested pollutant kind the result is
indeed absent (`None`). -/
theorem c1_get_sensor_lookup_miss :
    (StationsClient.init 0).get_sensor 0 "station-1" PollutantType.PM2_5
        = GetSensorResult.indexError ∧
    (⟨[stOk], 0⟩ : StationsClient).get_sensor 2000 "S_1" PollutantType.PM10
        = GetSensorResult.absent :=
  ⟨by decide, by decide⟩

/-- Claim C2, counterexample: a station holding a pollutant whose
`value` is `null` makes `Station.sensors` raise a pydantic
`ValidationError` (the `state` field of `SaveEcoBotSensorModel` is not
`Optional`), so no sequence of sensor records is returned for it. -/
theorem c2_counterexample_null_value :
    stNullValue.sensors 0 = Except.error SensorsErr.stateNone := rfl

/-- A witnessed `mkSensor` relation determines the sensor-type and
state columns of the output from the pollutant columns of the input. -/
theorem forall2_mkSensor_maps {st : Station} {now : Int} :
    ∀ {ps : List Pollutant} {l : List SaveEcoBotSensorModel},
      List.Forall₂ (fun p m => mkSensor st now p = Except.ok m) ps l →
      l.map (fun m => m.sensor_type) = ps.map (fun p => p.pol) ∧
      l.map (fun m => some m.state) = ps.map (fun p => p.value) := by
  intro ps l hfa
  induction hfa with
  | nil => exact ⟨rfl, rfl⟩
  | cons hR htail ih =>
    obtain ⟨t, v, ht, hv, hty, hstate, _⟩ := mkSensor_ok_inv hR
    exact ⟨by simp [ih.1, hty], by simp [ih.2, hstate, hv]⟩

/-- Claim C2 (amended): for every Station all of whose pollutants carry
a non-null timestamp and a non-null value, `Station.sensors` returns
exactly one sensor record per pollutant, in the order of the pollutant
sequence, with each record's state equal to the corresponding
pollutant's value. -/
theorem c2_sensors_one_record_per_pollutant (st : Station) (now : Int)
    (h : ∀ p ∈ st.pollutants, p.time ≠ none ∧ p.value ≠ none) :
    ∃ l, st.sensors now = Except.ok l ∧
      l.map (fun m => m.sensor_type) = st.pollutants.map (fun p => p.pol) ∧
      l.map (fun m => some m.state) = st.pollutants.map (fun p => p.value) := by
  have hall : ∀ p ∈ st.pollutants, ∃ m, mkSensor st now p = Except.ok m := by
    intro p hp
    obtain ⟨ht, hv⟩ := h p hp
    obtain ⟨t, htt⟩ := Option.ne_none_iff_exists'.mp ht
    obtain ⟨v, hvv⟩ := Option.ne_none_iff_exists'.mp hv
    cases hmk : mkSensor st now p with
    | ok m => exact ⟨m, rfl⟩
    | error e =>
      exfalso
      simp [mkSensor, htt, hvv] at hmk
  obtain ⟨l, hok, hfa⟩ := mapExcept_all_ok hall
  obtain ⟨h1, h2⟩ := forall2_mkSensor_maps hfa
  exact ⟨l, hok, h1, h2⟩

/-- Witness for the amended C2 at a concrete station. -/
theorem c2_sensors_witness :
    (∀ p ∈ stOk.pollutants, p.time ≠ none ∧ p.value ≠ none) ∧
    (∃ l, stOk.sensors 44200 = Except.ok l ∧
      l.map (fun m => m.sensor_type) = stOk.pollutants.map (fun p => p.pol) ∧
      l.map (fun m => some m.state) = stOk.pollutants.map (fun p => p.value)) :=
  ⟨by decide, c2_sensors_one_record_per_pollutant stOk 44200 (by decide)⟩

/-- Claim C6: for every pollutant with a non-null timestamp, the derived
record's deprecated flag is set exactly when the reading is strictly
older than 12 hours. -/
theorem c6_deprecated_iff_older_than_12h (st : Station) (now : Int)
    (l : List SaveEcoBotSensorModel) (m : SaveEcoBotSensorModel)
    (p : Pollutant) (t : Int) (i : Nat)
    (hok : st.sensors now = Except.ok l)
    (hp : st.pollutants.get? i = some p)
    (hm : l.get? i = some m)
    (ht : p.time = some t) :
    (m.deprecated = true ↔ now - t > 12 * 3600) := by
  have hok2 : mapExcept (mkSensor st now) st.pollutants = .ok l := hok
  have hfa := mapExcept_ok_forall2 hok2
  obtain ⟨hip, hgp⟩ := List.get?_eq_some.mp hp
  obtain ⟨him, hgm⟩ := List.get?_eq_some.mp hm
  have hR := hfa.get hip him
  rw [hgp, hgm] at hR
  obtain ⟨t2, v, ht2, _, _, _, hdep⟩ := mkSensor_ok_inv hR
  rw [ht] at ht2
  injection ht2 with he
  subst he
  simpa [SENSOR_DEPRECATION_HOURS] using hdep

/-- Witness for C6 at the 12-hour boundary: the reading is exactly
12h00m00s old and the flag is still false. -/
theorem c6_deprecated_witness :
    (stOk.sensors 44200 = Except.ok [recC6] ∧
     stOk.pollutants.get? 0 = some polOk ∧
     [recC6].get? 0 = some recC6 ∧
     polOk.time = some 1000 ∧
     recC6.deprecated = false) ∧
    (recC6.deprecated = true ↔ (44200:Int) - 1000 > 12 * 3600) :=
  ⟨⟨rfl, rfl, rfl, rfl, rfl⟩,
   c6_deprecated_iff_older_than_12h stOk 44200 [recC6] recC6 polOk 1000 0
     rfl rfl rfl rfl⟩

/-- Claim C9: a station containing a pollutant with a null timestamp
makes `Station.sensors` raise (the `strftime` call receives `None`)
instead of returning a record sequence. -/
theorem c9_null_time_sensors_raise (st : Station) (now : Int)
    (h : ∃ p ∈ st.pollutants, p.time = none) :
    ∃ e, st.sensors now = Except.error e := by
  cases hs : st.sensors now with
  | error e => exact ⟨e, rfl⟩
  | ok l =>
    exfalso
    obtain ⟨p, hp, ht⟩ := h
    have hs2 : mapExcept (mkSensor st now) st.pollutants = .ok l := hs
    obtain ⟨m, hm⟩ := forall2_mem_left (mapExcept_ok_forall2 hs2) hp
    obtain ⟨t, v, ht2, _, _, _, _⟩ := mkSensor_ok_inv hm
    rw [ht] at ht2
    exact Option.noConfusion ht2

/-- Witness for C9 at a concrete station whose pollutant has a null
timestamp but a present value. -/
theorem c9_null_time_witness :
    (∃ p ∈ stNullTime.pollutants, p.time = none) ∧
    (∃ e, stNullTime.sensors 0 = Except.error e) :=
  ⟨⟨polNullTime, by decide, rfl⟩,
   c9_null_time_sensors_raise stNullTime 0 ⟨polNullTime, by decide, rfl⟩⟩

/-- A pollutant with a unit string outside the translation table. -/
def polUnknownUnit : Pollutant :=
  ⟨.AQI, "unknown_unit", none, none, "x"⟩

/-- Claim C3: when the fetch actually happens (not debounced) and the
response status is not 2xx, `update` returns failure and both `stations`
and `updated_at` are exactly as before. -/
theorem c3_non2xx_keeps_state (c : StationsClient) (now : Int) (force : Bool)
    (status : Nat) (body : List RawStation)
    (hfetch : force = true ∨ 30 ≤ now - c.updated_at)
    (hstatus : ¬(200 ≤ status ∧ status < 300)) :
    c.update now force status body = ⟨c, false, true⟩ := by
  have hdeb : ¬(now - c.updated_at < 30 ∧ force = false) := by
    rcases hfetch with h | h
    · rintro ⟨_, hf⟩
      rw [h] at hf
      cases hf
    · rintro ⟨hlt, _⟩
      omega
  have h200 : status ≠ 200 := by
    rintro rfl
    exact hstatus ⟨by omega, by omega⟩
  unfold StationsClient.update
  rw [if_neg hdeb, if_pos h200]

/-- Witness for C3: a 500 response on a stale registry. -/
theorem c3_non2xx_witness :
    ((false = true ∨ (30:Int) ≤ 100 - (StationsClient.init 0).updated_at) ∧
     ¬(200 ≤ 500 ∧ 500 < 300)) ∧
    (StationsClient.init 0).update 100 false 500 [] =
      ⟨StationsClient.init 0, false, true⟩ :=
  ⟨⟨Or.inr (by decide), by omega⟩,
   c3_non2xx_keeps_state (StationsClient.init 0) 100 false 500 []
     (Or.inr (by decide)) (by omega)⟩

/-- Claim C4, counterexample: a 201 response (2xx but not 200) makes
`update` return failure and leave the registry untouched, even though
its body is a validating record; the claim predicted success and
replacement for every 2xx response. -/
theorem c4_counterexample_201_fails :
    ((StationsClient.init 0).update 100 true 201 [rawGood]).success = false ∧
    ((StationsClient.init 0).update 100 true 201 [rawGood]).client.stations = [] ∧
    parseStation rawGood = some stGood :=
  ⟨by decide, by decide, by decide⟩

/-- Claim C4 (amended): for a response with status exactly 200, `update`
replaces the stations wholesale with precisely the records of the body
that validate, in feed order (records failing validation are skipped
without aborting the rest), sets `updated_at` to now, and returns
success. -/
theorem c4_update_200_replaces (c : StationsClient) (now : Int) (force : Bool)
    (body : List RawStation)
    (hfetch : force = true ∨ 30 ≤ now - c.updated_at) :
    (c.update now force 200 body).success = true ∧
    (c.update now force 200 body).client.updated_at = now ∧
    List.Forall₂ (fun r s => parseStation r = some s)
      (body.filter (fun r => (parseStation r).isSome))
      ((c.update now force 200 body).client.stations) := by
  have hdeb : ¬(now - c.updated_at < 30 ∧ force = false) := by
    rcases hfetch with h | h
    · rintro ⟨_, hf⟩
      rw [h] at hf
      cases hf
    · rintro ⟨hlt, _⟩
      omega
  have hupd : c.update now force 200 body
      = ⟨⟨body.filterMap parseStation, now⟩, true, true⟩ := by
    unfold StationsClient.update
    rw [if_neg hdeb, if_neg (show ¬((200:Nat) ≠ 200) by simp)]
  rw [hupd]
  exact ⟨rfl, rfl, filter_isSome_forall2_filterMap parseStation body⟩

/-- Witness for the amended C4: a forced update whose body holds one
invalid and one valid record; the invalid one is skipped, the valid one
lands in the registry. -/
theorem c4_update_200_witness :
    (true = true ∨ (30:Int) ≤ 100 - (StationsClient.init 0).updated_at) ∧
    (((StationsClient.init 0).update 100 true 200 [rawBad, rawGood]).success = true ∧
     ((StationsClient.init 0).update 100 true 200 [rawBad, rawGood]).client.updated_at = 100 ∧
     List.Forall₂ (fun r s => parseStation r = some s)
       ([rawBad, rawGood].filter (fun r => (parseStation r).isSome))
       (((StationsClient.init 0).update 100 true 200 [rawBad, rawGood]).client.stations)) :=
  ⟨Or.inl rfl,
   c4_update_200_replaces (StationsClient.init 0) 100 true [rawBad, rawGood]
     (Or.inl rfl)⟩

/-- Claim C5, counterexample: on a freshly constructed registry, two
`update(force=False)` calls one second apart both succeed while
performing zero network calls, not exactly one. -/
theorem c5_counterexample_zero_calls :
    ((StationsClient.init 0).update 1 false 200 []).networkCalled = false ∧
    ((StationsClient.init 0).update 1 false 200 []).success = true ∧
    (((StationsClient.init 0).update 1 false 200 []).client.update 2 false 200 []).networkCalled = false ∧
    (((StationsClient.init 0).update 1 false 200 []).client.update 2 false 200 []).success = true :=
  ⟨by decide, by decide, by decide, by decide⟩

/-- Claim C5 (amended): an `update(force=False)` within 30 seconds of
`updated_at` returns success immediately with no network request and no
state change; and when the first of two `force=False` calls within 30
seconds of each other does fetch and gets a 200, the second performs no
network call — so that pair performs exactly one network call. -/
theorem c5_debounce_and_single_fetch :
    (∀ (c : StationsClient) (now : Int) (status : Nat) (body : List RawStation),
        now - c.updated_at < 30 →
        c.update now false status body = ⟨c, true, false⟩) ∧
    (∀ (c : StationsClient) (t1 t2 : Int) (body1 : List RawStation)
        (status2 : Nat) (body2 : List RawStation),
        (c.update t1 false 200 body1).networkCalled = true →
        t2 - t1 < 30 →
        (c.update t1 false 200 body1).client.update t2 false status2 body2
          = ⟨(c.update t1 false 200 body1).client, true, false⟩) := by
  constructor
  · intro c now status body h
    have hc : now - c.updated_at < 30 ∧ (false : Bool) = false := ⟨h, rfl⟩
    unfold StationsClient.update
    rw [if_pos hc]
  · intro c t1 t2 body1 status2 body2 hnet hlt
    by_cases hdeb : t1 - c.updated_at < 30 ∧ (false : Bool) = false
    · exfalso
      unfold StationsClient.update at hnet
      rw [if_pos hdeb] at hnet
      cases hnet
    · have hcl : (c.update t1 false 200 body1).client
          = ⟨body1.filterMap parseStation, t1⟩ := by
        unfold StationsClient.update
        rw [if_neg hdeb, if_neg (show ¬((200:Nat) ≠ 200) by simp)]
      rw [hcl]
      have hc2 : t2 - (⟨body1.filterMap parseStation, t1⟩ : StationsClient).updated_at < 30
          ∧ (false : Bool) = false := ⟨hlt, rfl⟩
      unfold StationsClient.update
      rw [if_pos hc2]

/-- Witness for the amended C5: part one on a fresh registry, part two
on a stale registry whose first call fetches with a 200. -/
theorem c5_witness :
    ((10:Int) - (StationsClient.init 0).updated_at < 30 ∧
     (StationsClient.init 0).update 10 false 404 [] = ⟨StationsClient.init 0, true, false⟩) ∧
    (((StationsClient.init 0).update 50 false 200 []).networkCalled = true ∧
     (60:Int) - 50 < 30 ∧
     ((StationsClient.init 0).update 50 false 200 []).client.update 60 false 404 []
       = ⟨((StationsClient.init 0).update 50 false 200 []).client, true, false⟩) :=
  ⟨⟨by decide, c5_debounce_and_single_fetch.1 (StationsClient.init 0) 10 404 [] (by decide)⟩,
   ⟨by decide, by decide,
    c5_debounce_and_single_fetch.2 (StationsClient.init 0) 50 60 [] 404 [] (by decide) (by decide)⟩⟩

/-- Specification-side predicate for `filter`: the conjunction (AND) of
the three criteria, an empty criterion imposing no constraint — to be
compared against `StationsClient.filter_stations`. -/
def specConjunctionPred (station_ids city_names station_names : List String)
    (s : Station) : Bool :=
  (station_ids.isEmpty || station_ids.contains s.id) &&
  ((city_names.isEmpty || city_names.contains s.cityName) &&
   (station_names.isEmpty || station_names.contains s.stationName))

/-- Claim C7: `filter_stations` returns exactly the stations satisfying
the conjunction of the non-empty criteria, in registry order, and with
all criteria empty it returns every station. -/
theorem c7_filter_conjunction (c : StationsClient) (ids cns sns : List String) :
    c.filter_stations ids cns sns = c.stations.filter (specConjunctionPred ids cns sns) ∧
    c.filter_stations [] [] [] = c.stations := by
  have step : ∀ (b : Bool) (f : Station → Bool) (l : List Station),
      (if b then l else l.filter f) = l.filter (fun s => b || f s) := by
    intro b f l
    cases b <;> simp
  constructor
  · show (let fs0 := c.stations
          let fs1 := if ids.isEmpty then fs0
                     else fs0.filter (fun s => ids.contains s.id)
          let fs2 := if cns.isEmpty then fs1
                     else fs1.filter (fun s => cns.contains s.cityName)
          let fs3 := if sns.isEmpty then fs2
                     else fs2.filter (fun s => sns.contains s.stationName)
          fs3) = c.stations.filter (specConjunctionPred ids cns sns)
    simp only
    rw [step, step, step, List.filter_filter, List.filter_filter]
    refine List.filter_congr (fun s _ => ?_)
    cases h1 : (ids.isEmpty || ids.contains s.id) <;>
      cases h2 : (cns.isEmpty || cns.contains s.cityName) <;>
        cases h3 : (sns.isEmpty || sns.contains s.stationName) <;>
          simp only [specConjunctionPred, h1, h2, h3, Bool.false_and,
            Bool.and_false, Bool.true_and, Bool.and_true]
  · rfl

/-- Claim C8: the canonical display unit is the table translation when
the raw unit is a key of the table, and the raw unit itself otherwise. -/
theorem c8_unit_translation (p : Pollutant) :
    (∀ canon : String, (p.unit, canon) ∈ hassUnitTranslation → p.hass_unit = canon) ∧
    (p.unit ∉ hassUnitTranslation.map Prod.fst → p.hass_unit = p.unit) := by
  constructor
  · intro canon hmem
    simp only [hassUnitTranslation, List.mem_cons, List.not_mem_nil, or_false,
      Prod.mk.injEq] at hmem
    rcases hmem with ⟨h1, h2⟩ | ⟨h1, h2⟩ | ⟨h1, h2⟩ | ⟨h1, h2⟩ <;>
      (subst h2; simp [Pollutant.hass_unit, hassUnitTranslation, List.find?, h1])
  · intro hnot
    simp only [hassUnitTranslation, List.map_cons, List.map_nil, List.mem_cons,
      List.not_mem_nil, or_false, not_or] at hnot
    obtain ⟨h1, h2, h3, h4⟩ := hnot
    have b1 : (("mg/m3" : String) == p.unit) = false :=
      beq_eq_false_iff_ne.mpr (Ne.symm h1)
    have b2 : (("Celcius" : String) == p.unit) = false :=
      beq_eq_false_iff_ne.mpr (Ne.symm h2)
    have b3 : (("%" : String) == p.unit) = false :=
      beq_eq_false_iff_ne.mpr (Ne.symm h3)
    have b4 : (("hPa" : String) == p.unit) = false :=
      beq_eq_false_iff_ne.mpr (Ne.symm h4)
    simp [Pollutant.hass_unit, hassUnitTranslation, List.find?, b1, b2, b3, b4]

/-- Witness for C8 at the spec's two round-trip examples. -/
theorem c8_unit_witness :
    ((polOk.unit, CONCENTRATION_MILLIGRAMS_PER_CUBIC_METER) ∈ hassUnitTranslation ∧
     polOk.hass_unit = CONCENTRATION_MILLIGRAMS_PER_CUBIC_METER) ∧
    (polUnknownUnit.unit ∉ hassUnitTranslation.map Prod.fst ∧
     polUnknownUnit.hass_unit = polUnknownUnit.unit) :=
  ⟨⟨by decide,
    (c8_unit_translation polOk).1 CONCENTRATION_MILLIGRAMS_PER_CUBIC_METER (by decide)⟩,
   ⟨by decide, (c8_unit_translation polUnknownUnit).2 (by decide)⟩⟩

/-- Claim C10: right after construction the registry is empty with
`updated_at = now`, a non-forced update within 30 seconds is a
debounced success with no network call, and every lookup observes the
empty dataset. -/
theorem c10_fresh_registry (now t : Int) (status : Nat) (body : List RawStation)
    (ids cns sns : List String) (city : String)
    (h : t - now < 30) :
    (StationsClient.init now).stations = [] ∧
    (StationsClient.init now).updated_at = now ∧
    (StationsClient.init now).update t false status body
      = ⟨StationsClient.init now, true, false⟩ ∧
    (StationsClient.init now).cities = [] ∧
    (StationsClient.init now).city_stations city = [] ∧
    (StationsClient.init now).filter_stations ids cns sns = [] := by
  refine ⟨rfl, rfl, ?_, rfl, ?_, ?_⟩
  · have hc : t - (StationsClient.init now).updated_at < 30 ∧ (false : Bool) = false :=
      ⟨h, rfl⟩
    unfold StationsClient.update
    rw [if_pos hc]
  · have hne : city ∉ (StationsClient.init now).cities := by
      intro hmem
      simp [StationsClient.cities, StationsClient.init, sortAsc, List.dedup_nil] at hmem
    unfold StationsClient.city_stations
    rw [if_neg hne]
  · unfold StationsClient.filter_stations StationsClient.init
    cases hi : ids.isEmpty <;> cases hc2 : cns.isEmpty <;> cases hs : sns.isEmpty <;>
      simp [hi, hc2, hs]

/-- Witness for C10 on a registry constructed at time 0, probed at
time 10. -/
theorem c10_fresh_witness :
    ((10:Int) - 0 < 30) ∧
    ((StationsClient.init 0).stations = [] ∧
     (StationsClient.init 0).updated_at = 0 ∧
     (StationsClient.init 0).update 10 false 200 [] = ⟨StationsClient.init 0, true, false⟩ ∧
     (StationsClient.init 0).cities = [] ∧
     (StationsClient.init 0).city_stations "Kyiv" = [] ∧
     (StationsClient.init 0).filter_stations [] [] [] = []) :=
  ⟨by decide, c10_fresh_registry 0 10 200 [] [] [] [] "Kyiv" (by decide)⟩
